import Mathlib

/-!
# whisper-transcription-app — verification of the spec's claims

Shallow embedding of the recording/metering component
(`src/components/DynamicRecorder.tsx`), the transcript presentation helpers
(`src/app/page.tsx`) and the transcription POST route handler
(`src/unnamed/part_000`), together with proofs settling the claims of the
specification.

JavaScript numbers are modelled as exact rationals (`ℚ`); 8-bit frequency
magnitudes as naturals `≤ 255`; the platform event loop as an explicit list of
atomic events, each event folding in the `useEffect` reaction that the same
scheduling turn delivers.
-/

namespace WhisperApp

/-! ## Metering arithmetic (DynamicRecorder.tsx, `startVolumeMonitoring`) -/

/-- `analyserRef.current.fftSize = 256` (DynamicRecorder.tsx line 73). -/
def fftSize : ℕ := 256

/-- Web Audio platform semantics: an `AnalyserNode`'s `frequencyBinCount` is
half of its `fftSize`.  The source sizes its analysis buffer by
`analyserRef.current.frequencyBinCount` (line 76). -/
def frequencyBinCount (n : ℕ) : ℕ := n / 2

/-- `const bufferLength = analyserRef.current.frequencyBinCount` — the length
of the `Uint8Array` window sampled on each metering iteration (lines 76–77). -/
def bufferLength : ℕ := frequencyBinCount fftSize

/-- The value written by one `updateVolume` iteration (lines 81–83):
`dataArray.reduce((acc, val) => acc + val, 0) / dataArray.length`, then
divided by 255 before being stored in `volumeLevel`. -/
def updateVolumeValue (dataArray : List ℕ) : ℚ :=
  let average : ℚ := ((dataArray.foldl (fun acc val => acc + val) 0 : ℕ) : ℚ) /
    ((dataArray.length : ℕ) : ℚ)
  average / 255

/-! ## The recording session state machine (DynamicRecorder.tsx)

The component combines the media-recorder hook's status with the volume
monitor's refs.  State fields mirror the refs and React state of the source:

* `status` — the recorder hook's status as observed by the component
  (`'idle' | 'recording' | 'stopped'`; the source only ever branches on
  `status === 'recording'`).
* `recorderStreamOpen` — Modelled from the spec: the device stream owned by
  the media-recorder hook itself (the hook's internals are not part of the
  repository).  Spec §4.1: `start()` "acquires the device stream, transitions
  to `Recording`"; `stop()` "stops and releases `mediaStreamHandle`".
* `audioCtxOpen` — `audioContextRef.current ≠ null` (created lazily at
  lines 66–68, closed only by the unmount cleanup at lines 110–112).
* `monitorStreamsOpen` — the number of still-live streams returned by the
  *separate* `navigator.mediaDevices.getUserMedia` call inside
  `startVolumeMonitoring` (line 70).  No code path ever stops these
  streams' tracks, so the count never decreases.
* `analyserOpen` — `analyserRef.current ≠ null` (set at line 72, never
  cleared).
* `pendingFrames` — the number of animation-frame callbacks currently
  scheduled by the metering loop (`animationFrameRef`, lines 85, 95–97).
* `volumeLevel` — the `volumeLevel` React state (line 47).
* `audioBlobSet` — whether `audioBlob` holds a finished recording
  (`onStop`, lines 56–61).
-/

inductive RecStatus
  | idle
  | recording
  | stopped
deriving DecidableEq, Repr

structure RecorderState where
  status : RecStatus
  recorderStreamOpen : Bool
  audioCtxOpen : Bool
  monitorStreamsOpen : ℕ
  analyserOpen : Bool
  pendingFrames : ℕ
  volumeLevel : ℚ
  audioBlobSet : Bool
deriving DecidableEq, Repr

/-- The component's initial state: all refs null, `volumeLevel = 0`. -/
def initialState : RecorderState :=
  { status := .idle
    recorderStreamOpen := false
    audioCtxOpen := false
    monitorStreamsOpen := 0
    analyserOpen := false
    pendingFrames := 0
    volumeLevel := 0
    audioBlobSet := false }

/-- Errors of the spec's error taxonomy (§7).  Modelled from the spec: the
source code itself defines no error values (all failures are caught and
`console.error`-logged), so these names exist only to state the claims that
mention them. -/
inductive RecError
  | alreadyRecording
  | deviceUnavailable
deriving DecidableEq, Repr

/-- One atomic event of the UI event loop.  `startClick grant d0` is a click
on the start button: `grant` says whether the monitor's `getUserMedia`
succeeds, `d0` is the frequency window read by the immediate first
`updateVolume()` call.  `stopClick` is a click on the stop button.
`meterTick d` is one execution of the scheduled `updateVolume` callback
reading window `d`. -/
inductive Event
  | startClick (grant : Bool) (d0 : List ℕ)
  | stopClick
  | meterTick (d : List ℕ)

/-- `disabled={status === 'recording' || isProcessing}` on the start button
(DynamicRecorder.tsx line 138). -/
def startButtonDisabled (status : RecStatus) (isProcessing : Bool) : Bool :=
  status == .recording || isProcessing

/-- `disabled={status !== 'recording' || isProcessing}` on the stop button
(line 150). -/
def stopButtonDisabled (status : RecStatus) (isProcessing : Bool) : Bool :=
  status != .recording || isProcessing

/-- One step of the combined component.  Each event also performs the
`useEffect` reaction (lines 101–114) that the same scheduling turn delivers:

* a granted start enters `recording`, the recorder hook acquires its stream
  (spec-modelled), and `startVolumeMonitoring` creates/reuses the audio
  context, acquires a *second* stream, installs an analyser, writes a first
  volume sample and schedules one animation frame;
* a denied start still enters `recording` for the recorder (its own
  acquisition succeeded), while `startVolumeMonitoring` creates the audio
  context and then fails at `getUserMedia`; the `catch` (lines 89–91) only
  logs, releasing nothing and surfacing no error;
* a start clicked while the button is disabled (status `recording`) is a
  no-op — the handler never runs;
* a stop while `recording` finalizes the artifact, releases the recorder's
  stream (spec-modelled), and the effect's `stopVolumeMonitoring`
  (lines 94–99) cancels the pending animation frame and zeroes
  `volumeLevel`; the monitor's stream, analyser and audio context are left
  untouched;
* a metering tick fires only if a frame is pending; it overwrites
  `volumeLevel` when the analyser is present (lines 80–84) and reschedules
  itself (line 85). -/
def step (s : RecorderState) (e : Event) : RecorderState :=
  match e with
  | .startClick grant d0 =>
      if startButtonDisabled s.status false then s
      else if grant then
        { s with
            status := .recording
            recorderStreamOpen := true
            audioCtxOpen := true
            monitorStreamsOpen := s.monitorStreamsOpen + 1
            analyserOpen := true
            volumeLevel := updateVolumeValue d0
            pendingFrames := s.pendingFrames + 1 }
      else
        { s with
            status := .recording
            recorderStreamOpen := true
            audioCtxOpen := true }
  | .stopClick =>
      if stopButtonDisabled s.status false then s
      else
        { s with
            status := .stopped
            recorderStreamOpen := false
            audioBlobSet := true
            pendingFrames := s.pendingFrames - 1
            volumeLevel := 0 }
  | .meterTick d =>
      if 0 < s.pendingFrames then
        { s with
            volumeLevel := if s.analyserOpen then updateVolumeValue d else s.volumeLevel }
      else s

/-- The error value surfaced to the caller by a step.  The source surfaces
none: every failure path is a `console.error` (lines 89–91, 118, 125–126) and
the component defines no error type, so this is constantly `none`. -/
def stepError (_s : RecorderState) (_e : Event) : Option RecError := none

/-- Run a sequence of events from the initial state. -/
def run (events : List Event) : RecorderState :=
  events.foldl step initialState

/-- The number of open device streams held by the session: the recorder
hook's stream plus every stream acquired by `startVolumeMonitoring`. -/
def openStreams (s : RecorderState) : ℕ :=
  (if s.recorderStreamOpen then 1 else 0) + s.monitorStreamsOpen

/-! ## Level-indicator presentation (DynamicRecorder.tsx, `VoiceLevelIndicator`) -/

/-- `const bars = 20` (line 14). -/
def bars : ℕ := 20

/-- `Math.min(volumeLevel * 1.67, 1)` (line 15). -/
def adjustedVolumeLevel (volumeLevel : ℚ) : ℚ :=
  min (volumeLevel * (167 / 100 : ℚ)) 1

/-- `Math.floor(adjustedVolumeLevel * bars)` (line 16). -/
def filledBars (volumeLevel : ℚ) : ℤ :=
  ⌊adjustedVolumeLevel volumeLevel * (bars : ℚ)⌋

/-- `getBarColor` (lines 18–22): green below `bars * 0.6`, yellow below
`bars * 0.8`, red above. -/
def getBarColor (index : ℕ) : String :=
  if (index : ℚ) < (bars : ℚ) * (6 / 10 : ℚ) then "rgb(34, 197, 94)"
  else if (index : ℚ) < (bars : ℚ) * (8 / 10 : ℚ) then "rgb(234, 179, 8)"
  else "rgb(239, 68, 68)"

/-- The claim's wording of the tiering, to compare with `getBarColor`: the
top 20% of bar positions are the hot (red) tier, the next 20% the caution
(yellow) tier, the remaining 60% normal (green). -/
def claimBarTier (index : ℕ) : String :=
  if bars - bars / 5 ≤ index then "rgb(239, 68, 68)"
  else if bars - 2 * (bars / 5) ≤ index then "rgb(234, 179, 8)"
  else "rgb(34, 197, 94)"

/-- The claim's wording of the displayed level: `min(volumeLevel * 1.67, 1)`. -/
def claimDisplayedLevel (volumeLevel : ℚ) : ℚ :=
  min (volumeLevel * (167 / 100 : ℚ)) 1

/-- The claim's wording of the quantization: `floor(level * 20)` filled bars. -/
def claimFilledBars (volumeLevel : ℚ) : ℤ :=
  ⌊claimDisplayedLevel volumeLevel * 20⌋

/-! ## Transcript presentation (src/app/page.tsx) -/

/-- A transcription segment as the page consumes it (page.tsx lines 18–23):
`{ id, start, end, text }` with times in seconds. -/
structure Segment where
  id : ℕ
  start : ℚ
  «end» : ℚ
  text : String

/-- JavaScript's `%` on numbers (truncating remainder).  For the
non-negative operands used here it equals `a - b * ⌊a / b⌋`. -/
def jsRem (a b : ℚ) : ℚ := a - b * (⌊a / b⌋ : ℚ)

/-- JavaScript's `String.prototype.padStart(targetLength, padChar)` for a
one-character pad. -/
def padStart (s : String) (targetLength : ℕ) (padChar : Char) : String :=
  if targetLength ≤ s.length then s
  else String.mk (List.replicate (targetLength - s.length) padChar) ++ s

/-- `formatTimestamp` (page.tsx lines 92–96): minutes `= Math.floor(time/60)`,
seconds `= Math.floor(time % 60)`, each `padStart(2, '0')`, joined by `:`. -/
def formatTimestamp (time : ℚ) : String :=
  let minutes : ℤ := ⌊time / 60⌋
  let seconds : ℤ := ⌊jsRem time 60⌋
  padStart (toString minutes) 2 '0' ++ ":" ++ padStart (toString seconds) 2 '0'

/-- `getTranscriptWithTimestamps` (page.tsx lines 98–100): each segment as
`[start - end] text`, joined with newlines. -/
def getTranscriptWithTimestamps (segments : List Segment) : String :=
  String.intercalate "\n" (segments.map fun seg =>
    "[" ++ formatTimestamp seg.start ++ " - " ++ formatTimestamp seg.«end» ++ "] " ++ seg.text)

/-- `getTranscriptWithoutTimestamps` (page.tsx lines 102–104): segment texts
joined with single spaces. -/
def getTranscriptWithoutTimestamps (segments : List Segment) : String :=
  String.intercalate " " (segments.map fun seg => seg.text)

/-- The collaborator stub's segment list from the round-trip claim:
`[{id: 0, start: 0, end: 1.2, text: "hello world"}]`. -/
def helloSegments : List Segment :=
  [{ id := 0, start := 0, «end» := 6 / 5, text := "hello world" }]

/-! ## The transcribe POST route handler (src/unnamed/part_000) -/

/-- The part of an uploaded `File` the handler inspects. -/
structure UploadedFile where
  name : String
  size : ℕ
deriving DecidableEq, Repr

/-- The remote transcription call, modelled as its two observable outcomes:
a response carrying `text` (segments and language ride along unchanged and
do not affect control flow), or a thrown error with a `message`. -/
inductive RemoteOutcome
  | ok (text : String)
  | thrown (message : String)

/-- The handler's observable side effects, in order of occurrence. -/
inductive Effect
  | tempWrite
  | remoteCall
  | tempDelete
deriving DecidableEq, Repr

/-- The JSON response the handler returns: HTTP status, the `error` field if
present, and the `text` field if present. -/
structure ApiResponse where
  status : ℕ
  error : Option String
  text : Option String
deriving DecidableEq, Repr

/-- The characters `String.prototype.trim` strips (the ASCII portion of
JavaScript's white-space set; the texts considered here are ASCII). -/
def isJsWhitespace (c : Char) : Bool :=
  c == ' ' || c == '\t' || c == '\n' || c == '\r' || c == '\x0b' || c == '\x0c'

/-- JavaScript's `String.prototype.trim`: strip leading and trailing
whitespace. -/
def jsTrim (s : String) : String :=
  String.mk (((s.data.dropWhile isJsWhitespace).reverse.dropWhile isJsWhitespace).reverse)

/-- The `POST` route handler (src/unnamed/part_000 lines 11–82), flattened
over its `try/catch/finally`: the API-key guard, the missing-file and
empty-file guards, the temp-file write, the remote call, the
empty-transcription guard, and the `finally` block deleting the temp file on
every path on which it was created.  Returns the JSON response and the list
of side effects in order. -/
def POST (apiKeyConfigured : Bool) (file : Option UploadedFile)
    (remote : RemoteOutcome) : ApiResponse × List Effect :=
  if !apiKeyConfigured then
    ({ status := 500, error := some "OpenAI API key not configured", text := none }, [])
  else
    match file with
    | none => ({ status := 400, error := some "No file uploaded", text := none }, [])
    | some f =>
      if f.size == 0 then
        ({ status := 400, error := some "File is empty", text := none }, [])
      else
        match remote with
        | .ok text =>
          if text == "" || jsTrim text == "" then
            ({ status := 500, error := some "Empty transcription received", text := none },
              [.tempWrite, .remoteCall, .tempDelete])
          else
            ({ status := 200, error := none, text := some text },
              [.tempWrite, .remoteCall, .tempDelete])
        | .thrown _message =>
          ({ status := 500, error := some "An error occurred during your request.", text := none },
            [.tempWrite, .remoteCall, .tempDelete])

/-! ## Invariants of the recording session -/

/-- The inductive invariant of the component: at most one animation frame is
ever pending, and whenever the status is not `recording` the metering loop is
fully cancelled and `volumeLevel` has been zeroed. -/
def GoodState (s : RecorderState) : Prop :=
  s.pendingFrames ≤ 1 ∧
    (s.status ≠ RecStatus.recording → s.pendingFrames = 0 ∧ s.volumeLevel = 0)

lemma goodState_initial : GoodState initialState := by
  constructor <;> simp [initialState]

lemma goodState_step (s : RecorderState) (e : Event) (h : GoodState s) :
    GoodState (step s e) := by
  obtain ⟨hpend, hidle⟩ := h
  cases e with
  | startClick grant d0 =>
      by_cases hrec : s.status = RecStatus.recording
      · simp only [step, startButtonDisabled, hrec]
        simp [GoodState, hpend, hidle, hrec]
      · have h0 : s.pendingFrames = 0 := (hidle hrec).1
        cases grant <;>
          simp [step, startButtonDisabled, hrec, GoodState, h0, hidle]
  | stopClick =>
      by_cases hrec : s.status = RecStatus.recording
      · simp only [step, stopButtonDisabled, hrec]
        refine ⟨?_, fun _ => ⟨?_, rfl⟩⟩ <;> simp <;> omega
      · simp [step, stopButtonDisabled, hrec, GoodState, hpend, hidle]
  | meterTick d =>
      by_cases hp : 0 < s.pendingFrames
      · have hrec : s.status = RecStatus.recording := by
          by_contra hrec
          exact absurd (hidle hrec).1 (by omega)
        simp [step, hp, GoodState, hpend, hrec]
      · refine ⟨?_, ?_⟩ <;> simp [step, hp, hpend]
        exact fun h => hidle h

lemma goodState_foldl (events : List Event) :
    ∀ s : RecorderState, GoodState s → GoodState (events.foldl step s) := by
  induction events with
  | nil => exact fun s h => h
  | cons e es ih => exact fun s h => ih (step s e) (goodState_step s e h)

lemma goodState_run (events : List Event) : GoodState (run events) :=
  goodState_foldl events initialState goodState_initial

lemma monitorStreams_step_mono (s : RecorderState) (e : Event) :
    s.monitorStreamsOpen ≤ (step s e).monitorStreamsOpen := by
  cases e with
  | startClick grant d0 =>
      by_cases hrec : startButtonDisabled s.status false = true <;>
        cases grant <;> simp [step, hrec]
  | stopClick =>
      by_cases hrec : stopButtonDisabled s.status false = true <;> simp [step, hrec]
  | meterTick d =>
      by_cases hp : 0 < s.pendingFrames <;> simp [step, hp]

end WhisperApp

namespace WhisperApp

/-- C1 (counterexample): a single granted `start()` already opens two device
streams — the recorder hook's own stream and the separate stream acquired by
`startVolumeMonitoring`'s `getUserMedia` call — so the session does hold two
open device streams simultaneously, refuting "at most one device stream
handle is open at any instant". -/
theorem two_device_streams_after_single_granted_start :
    openStreams (run [Event.startClick true []]) = 2 ∧
      ¬ openStreams (run [Event.startClick true []]) ≤ 1 := by
  decide

/-- C1 (amended): at most one metering loop (pending animation frame) is
alive at any instant, but the device streams are not bounded by one — the
monitor's streams are never released along any step, so each granted start
adds one permanently. -/
theorem metering_loop_unique_and_monitor_streams_monotone
    (events : List Event) (e : Event) :
    (run events).pendingFrames ≤ 1 ∧
      (run events).monitorStreamsOpen ≤ (step (run events) e).monitorStreamsOpen :=
  ⟨(goodState_run events).1, monitorStreams_step_mono (run events) e⟩

/-- C3: whenever the session is not in `Recording` — in particular in the
scheduling turn right after `stop()` from `Recording`, as the trace
`[startClick, stopClick]` in the witness exhibits — `volumeLevel` is 0, no
animation frame is pending, and any metering tick is a no-op (the loop
issues no further samples). -/
theorem volume_resets_and_loop_stops_outside_recording
    (events : List Event) (h : (run events).status ≠ RecStatus.recording) :
    (run events).volumeLevel = 0 ∧ (run events).pendingFrames = 0 ∧
      ∀ d : List ℕ, step (run events) (Event.meterTick d) = run events := by
  obtain ⟨hpend, hvol⟩ := (goodState_run events).2 h
  exact ⟨hvol, hpend, fun d => by simp [step, hpend]⟩

/-- C3 (witness): after `start()` then `stop()`, the session is `stopped`,
the volume reads 0, no frame is pending and ticks are no-ops. -/
theorem volume_resets_and_loop_stops_outside_recording_witness :
    (run [Event.startClick true [], Event.stopClick]).status ≠ RecStatus.recording ∧
      ((run [Event.startClick true [], Event.stopClick]).volumeLevel = 0 ∧
        (run [Event.startClick true [], Event.stopClick]).pendingFrames = 0 ∧
        ∀ d : List ℕ,
          step (run [Event.startClick true [], Event.stopClick]) (Event.meterTick d) =
            run [Event.startClick true [], Event.stopClick]) :=
  ⟨by decide,
    volume_resets_and_loop_stops_outside_recording
      [Event.startClick true [], Event.stopClick] (by decide)⟩

/-- C4 (counterexample): when the monitor's device acquisition is denied,
the session does not enter any error state (the status is still
`recording`), no `DeviceUnavailable` error is surfaced, and the audio
context handle created before the failing `getUserMedia` call remains held —
a partially acquired resource survives the error. -/
theorem denied_start_retains_audio_context_and_no_error_state :
    (run [Event.startClick false []]).audioCtxOpen = true ∧
      (run [Event.startClick false []]).status = RecStatus.recording ∧
      stepError initialState (Event.startClick false []) ≠ some RecError.deviceUnavailable := by
  decide

/-- C4 (amended): a denied device acquisition in `startVolumeMonitoring` is
caught and only logged (`console.error`): no error value is surfaced, no
error state exists, the failed stream and the analyser are not held, but the
audio context created before the failure remains held (it is released only
by the unmount cleanup). -/
theorem denied_monitor_acquisition_only_logs
    (s : RecorderState) (d : List ℕ) (h : s.status ≠ RecStatus.recording) :
    step s (Event.startClick false d) =
      { s with status := .recording, recorderStreamOpen := true, audioCtxOpen := true } ∧
      stepError s (Event.startClick false d) = none := by
  constructor
  · simp [step, startButtonDisabled, h]
  · rfl

/-- C4 (witness): denial on the very first start, from the initial state. -/
theorem denied_monitor_acquisition_only_logs_witness :
    initialState.status ≠ RecStatus.recording ∧
      (step initialState (Event.startClick false []) =
        { initialState with
            status := .recording, recorderStreamOpen := true, audioCtxOpen := true } ∧
        stepError initialState (Event.startClick false []) = none) :=
  ⟨by decide, denied_monitor_acquisition_only_logs initialState [] (by decide)⟩

/-- C5 (counterexample): invoking start while the session is `Recording`
does leave the session unchanged, but it does not fail with
`AlreadyRecording` — the component surfaces no error at all (the start
control is merely disabled). -/
theorem start_while_recording_raises_no_alreadyRecording :
    stepError (run [Event.startClick true []]) (Event.startClick true []) ≠
        some RecError.alreadyRecording ∧
      step (run [Event.startClick true []]) (Event.startClick true []) =
        run [Event.startClick true []] := by
  exact ⟨by simp [stepError], rfl⟩

/-- C5 (amended): while `Recording` the start control is disabled
(`disabled = (status == 'recording') || isProcessing`), so a start click is
a no-op: the whole session state — stream handles, metering loop,
`volumeLevel`, artifact — is unchanged, and no error value (in particular no
`AlreadyRecording`) is produced. -/
theorem start_disabled_while_recording_leaves_session_unchanged
    (s : RecorderState) (grant : Bool) (d : List ℕ)
    (h : s.status = RecStatus.recording) :
    startButtonDisabled s.status false = true ∧
      step s (Event.startClick grant d) = s ∧
      stepError s (Event.startClick grant d) = none := by
  refine ⟨by simp [startButtonDisabled, h], ?_, rfl⟩
  simp [step, startButtonDisabled, h]

/-- C5 (witness): a concrete recording session, reached by one granted
start, on which a second start click changes nothing. -/
theorem start_disabled_while_recording_leaves_session_unchanged_witness :
    (run [Event.startClick true []]).status = RecStatus.recording ∧
      (startButtonDisabled (run [Event.startClick true []]).status false = true ∧
        step (run [Event.startClick true []]) (Event.startClick false [7]) =
          run [Event.startClick true []] ∧
        stepError (run [Event.startClick true []]) (Event.startClick false [7]) = none) :=
  ⟨by decide,
    start_disabled_while_recording_leaves_session_unchanged
      (run [Event.startClick true []]) false [7] (by decide)⟩

lemma foldl_add_le_of_forall_le (dataArray : List ℕ) :
    ∀ acc : ℕ, (∀ x ∈ dataArray, x ≤ 255) →
      dataArray.foldl (fun a v => a + v) acc ≤ acc + 255 * dataArray.length := by
  induction dataArray with
  | nil => intro acc _; simp
  | cons v vs ih =>
      intro acc h
      have hv : v ≤ 255 := h v (by simp)
      have := ih (acc + v) (fun x hx => h x (by simp [hx]))
      calc (v :: vs).foldl (fun a u => a + u) acc
          = vs.foldl (fun a u => a + u) (acc + v) := by simp [List.foldl]
        _ ≤ acc + v + 255 * vs.length := this
        _ ≤ acc + 255 * (v :: vs).length := by simp [List.length_cons]; ring_nf; omega

/-- C2 (counterexample): the frequency-analysis window does not have 256
bins: the source sets `fftSize = 256`, and the window is sized by the
analyser's `frequencyBinCount`, which is half the FFT size — 128 bins. -/
theorem analysis_window_has_128_not_256_bins :
    bufferLength = 128 ∧ bufferLength ≠ 256 := by
  decide

/-- C2 (amended): the analysis window has `bufferLength = 128` bins
(`frequencyBinCount` of `fftSize = 256`); on every metering iteration
`volumeLevel` is overwritten with the arithmetic mean of all bin magnitudes
divided by 255, a value in `[0, 1]` for every possible window of 8-bit
magnitudes. -/
theorem metering_sample_mean_normalized_in_unit_interval
    (dataArray : List ℕ) (hlen : dataArray.length = bufferLength)
    (hmag : ∀ x ∈ dataArray, x ≤ 255) :
    bufferLength = 128 ∧
      0 ≤ updateVolumeValue dataArray ∧ updateVolumeValue dataArray ≤ 1 ∧
      ∀ s : RecorderState, 0 < s.pendingFrames → s.analyserOpen = true →
        (step s (Event.meterTick dataArray)).volumeLevel = updateVolumeValue dataArray := by
  have hlen128 : dataArray.length = 128 := by
    simpa [bufferLength, frequencyBinCount, fftSize] using hlen
  have hsum : dataArray.foldl (fun a v => a + v) 0 ≤ 255 * dataArray.length := by
    simpa using foldl_add_le_of_forall_le dataArray 0 hmag
  refine ⟨by decide, ?_, ?_, ?_⟩
  · unfold updateVolumeValue
    positivity
  · unfold updateVolumeValue
    rw [div_le_one (by norm_num : (0:ℚ) < 255)]
    rw [div_le_iff₀ (by rw [hlen128]; norm_num : (0:ℚ) < (dataArray.length : ℕ))]
    calc ((dataArray.foldl (fun a v => a + v) 0 : ℕ) : ℚ)
        ≤ ((255 * dataArray.length : ℕ) : ℚ) := by exact_mod_cast hsum
      _ = 255 * ((dataArray.length : ℕ) : ℚ) := by push_cast; ring
  · intro s hp ha
    simp [step, hp, ha]

/-- C2 (witness): the all-zero window of the correct length yields volume
0, inside `[0, 1]`. -/
theorem metering_sample_mean_normalized_in_unit_interval_witness :
    (List.replicate 128 0).length = bufferLength ∧
      (∀ x ∈ List.replicate 128 (0 : ℕ), x ≤ 255) ∧
      (bufferLength = 128 ∧
        0 ≤ updateVolumeValue (List.replicate 128 0) ∧
        updateVolumeValue (List.replicate 128 0) ≤ 1 ∧
        ∀ s : RecorderState, 0 < s.pendingFrames → s.analyserOpen = true →
          (step s (Event.meterTick (List.replicate 128 0))).volumeLevel =
            updateVolumeValue (List.replicate 128 0)) :=
  ⟨by simp [bufferLength, frequencyBinCount, fftSize], by simp,
    metering_sample_mean_normalized_in_unit_interval
      (List.replicate 128 0) (by simp [bufferLength, frequencyBinCount, fftSize]) (by simp)⟩

lemma formatTimestamp_zero : formatTimestamp 0 = "00:00" := by
  unfold formatTimestamp
  rw [show jsRem (0 : ℚ) 60 = 0 by unfold jsRem; norm_num]
  rw [show ⌊(0 : ℚ) / 60⌋ = 0 by norm_num, show ⌊(0 : ℚ)⌋ = 0 by norm_num]
  decide

lemma formatTimestamp_six_fifths : formatTimestamp (6 / 5) = "00:01" := by
  unfold formatTimestamp
  rw [show jsRem (6 / 5 : ℚ) 60 = 6 / 5 by unfold jsRem; norm_num]
  rw [show ⌊(6 / 5 : ℚ) / 60⌋ = 0 by norm_num, show ⌊(6 / 5 : ℚ)⌋ = 1 by norm_num]
  decide

/-- C6: on the stub collaborator response
`{text: "hello world", segments: [{id: 0, start: 0, end: 1.2, text: "hello
world"}]}`, the plain transcript renders exactly `"hello world"` and the
timestamped rendering exactly `"[00:00 - 00:01] hello world"` (minutes and
seconds floored and zero-padded to two digits). -/
theorem hello_world_round_trip_rendering :
    getTranscriptWithoutTimestamps helloSegments = "hello world" ∧
      getTranscriptWithTimestamps helloSegments = "[00:00 - 00:01] hello world" := by
  constructor
  · decide
  · unfold getTranscriptWithTimestamps helloSegments
    simp only [List.map]
    rw [formatTimestamp_zero, formatTimestamp_six_fifths]
    decide

/-- C7: for every `volumeLevel` in `[0, 1]`, the indicator's displayed level
is `min(volumeLevel * 1.67, 1)`, the quantization fills `floor(level * 20)`
of the 20 bars (a count between 0 and 20), and the per-bar colors match the
claim's tiering: top 20% hot (red), next 20% caution (yellow), remaining 60%
normal (green). -/
theorem level_indicator_gain_quantization_and_tiers
    (v : ℚ) (h0 : 0 ≤ v) (hv1 : v ≤ 1) :
    adjustedVolumeLevel v = claimDisplayedLevel v ∧
      filledBars v = claimFilledBars v ∧
      0 ≤ filledBars v ∧ filledBars v ≤ 20 ∧
      ∀ i : ℕ, i < bars → getBarColor i = claimBarTier i := by
  have hadj0 : 0 ≤ adjustedVolumeLevel v :=
    le_min (mul_nonneg h0 (by norm_num)) (by norm_num)
  have hadj1 : adjustedVolumeLevel v ≤ 1 := min_le_right _ _
  refine ⟨rfl, ?_, ?_, ?_, ?_⟩
  · simp [filledBars, claimFilledBars, adjustedVolumeLevel, claimDisplayedLevel, bars]
  · exact Int.le_floor.mpr (by push_cast; positivity)
  · calc filledBars v ≤ ⌊(20 : ℚ)⌋ := by
          apply Int.floor_le_floor
          calc adjustedVolumeLevel v * (bars : ℚ) ≤ 1 * (bars : ℚ) := by
                apply mul_le_mul_of_nonneg_right hadj1
                simp [bars]
            _ = (20 : ℚ) := by simp [bars]
      _ = 20 := by norm_num
  · intro i _hi
    have c1 : ((i : ℚ) < (bars : ℚ) * (6 / 10)) ↔ i < 12 := by
      rw [show (bars : ℚ) * (6 / 10) = ((12 : ℕ) : ℚ) by norm_num [bars]]
      exact Nat.cast_lt
    have c2 : ((i : ℚ) < (bars : ℚ) * (8 / 10)) ↔ i < 16 := by
      rw [show (bars : ℚ) * (8 / 10) = ((16 : ℕ) : ℚ) by norm_num [bars]]
      exact Nat.cast_lt
    have e1 : getBarColor i =
        if i < 12 then "rgb(34, 197, 94)"
        else if i < 16 then "rgb(234, 179, 8)" else "rgb(239, 68, 68)" := by
      unfold getBarColor
      simp only [c1, c2]
    have e2 : claimBarTier i =
        if 16 ≤ i then "rgb(239, 68, 68)"
        else if 12 ≤ i then "rgb(234, 179, 8)" else "rgb(34, 197, 94)" := by
      unfold claimBarTier bars
      norm_num
    rw [e1, e2]
    by_cases h12 : i < 12
    · simp [h12, show ¬ 16 ≤ i by omega, show ¬ 12 ≤ i by omega]
    · by_cases h16 : i < 16
      · simp [h12, h16, show ¬ 16 ≤ i by omega, show 12 ≤ i by omega]
      · simp [h12, h16, show 16 ≤ i by omega]

/-- C7 (witness): at `volumeLevel = 1/2`. -/
theorem level_indicator_gain_quantization_and_tiers_witness :
    (0 : ℚ) ≤ 1 / 2 ∧ (1 / 2 : ℚ) ≤ 1 ∧
      (adjustedVolumeLevel (1 / 2) = claimDisplayedLevel (1 / 2) ∧
        filledBars (1 / 2) = claimFilledBars (1 / 2) ∧
        0 ≤ filledBars (1 / 2) ∧ filledBars (1 / 2) ≤ 20 ∧
        ∀ i : ℕ, i < bars → getBarColor i = claimBarTier i) :=
  ⟨by norm_num, by norm_num,
    level_indicator_gain_quantization_and_tiers (1 / 2) (by norm_num) (by norm_num)⟩

lemma dropWhile_eq_nil_iff_all (p : Char → Bool) (l : List Char) :
    l.dropWhile p = [] ↔ l.all p := by
  induction l with
  | nil => simp
  | cons c cs ih =>
      by_cases hc : p c
      · simp [List.dropWhile, hc, ih]
      · simp [List.dropWhile, hc]

lemma jsTrim_eq_empty_iff (s : String) :
    jsTrim s = "" ↔ s.data.all isJsWhitespace := by
  unfold jsTrim
  rw [show ("" : String) = String.mk [] from rfl]
  constructor
  · intro h
    have hlist : ((s.data.dropWhile isJsWhitespace).reverse.dropWhile isJsWhitespace).reverse
        = ([] : List Char) := congrArg String.data h
    rw [List.reverse_eq_nil_iff, dropWhile_eq_nil_iff_all, List.all_eq_true] at hlist
    have hdrop : (s.data.dropWhile isJsWhitespace).all isJsWhitespace := by
      rw [List.all_eq_true]
      intro c hc
      exact hlist c (List.mem_reverse.mpr hc)
    rw [List.all_eq_true]
    intro c hc
    rw [← List.takeWhile_append_dropWhile (p := isJsWhitespace) (l := s.data)] at hc
    rcases List.mem_append.mp hc with htake | hdropmem
    · exact List.mem_takeWhile_imp htake
    · exact List.all_eq_true.mp hdrop c hdropmem
  · intro h
    have h1 : s.data.dropWhile isJsWhitespace = [] :=
      (dropWhile_eq_nil_iff_all _ _).mpr h
    simp [h1]

/-- C8: a POST with no `file` field answers 400 `"No file uploaded"`, and a
POST whose file has size 0 answers 400 `"File is empty"`; on both paths the
handler performs no side effect at all — in particular it neither writes a
temporary file nor contacts the remote transcription service.  (Stated for a
deployment with the API key configured; without it the handler answers 500
before looking at the form.) -/
theorem post_rejects_missing_and_empty_file_without_side_effects
    (remote : RemoteOutcome) (f : UploadedFile) :
    POST true none remote =
        ({ status := 400, error := some "No file uploaded", text := none }, []) ∧
      (f.size = 0 →
        POST true (some f) remote =
          ({ status := 400, error := some "File is empty", text := none }, [])) := by
  constructor
  · rfl
  · intro h
    simp [POST, h]

/-- C8 (witness): a concrete empty file. -/
theorem post_rejects_missing_and_empty_file_without_side_effects_witness :
    (({ name := "empty.webm", size := 0 } : UploadedFile).size = 0) ∧
      POST true none (.ok "hi") =
        ({ status := 400, error := some "No file uploaded", text := none }, []) ∧
      POST true (some { name := "empty.webm", size := 0 }) (.ok "hi") =
        ({ status := 400, error := some "File is empty", text := none }, []) :=
  ⟨rfl,
    (post_rejects_missing_and_empty_file_without_side_effects (.ok "hi")
      { name := "empty.webm", size := 0 }).1,
    (post_rejects_missing_and_empty_file_without_side_effects (.ok "hi")
      { name := "empty.webm", size := 0 }).2 rfl⟩

lemma post_effects_cases (apiKey : Bool) (file : Option UploadedFile)
    (remote : RemoteOutcome) :
    (POST apiKey file remote).2 = [] ∨
      (POST apiKey file remote).2 = [Effect.tempWrite, Effect.remoteCall, Effect.tempDelete] := by
  cases apiKey with
  | false => exact Or.inl rfl
  | true =>
      cases file with
      | none => exact Or.inl rfl
      | some f =>
          by_cases hs : f.size == 0
          · simp [POST, hs]
          · cases remote with
            | ok text =>
                by_cases ht : (text == "" || jsTrim text == "") <;> simp [POST, hs, ht]
            | thrown m => simp [POST, hs]

/-- C9: on every execution on which the handler creates the temporary file,
the temporary file is also deleted, and the deletion is the last effect
before the handler returns — on the success path, the empty-transcription
path and the thrown-error path alike. -/
theorem post_temp_file_always_deleted (apiKey : Bool) (file : Option UploadedFile)
    (remote : RemoteOutcome)
    (h : Effect.tempWrite ∈ (POST apiKey file remote).2) :
    Effect.tempDelete ∈ (POST apiKey file remote).2 ∧
      (POST apiKey file remote).2.getLast? = some Effect.tempDelete := by
  rcases post_effects_cases apiKey file remote with hnil | heff
  · rw [hnil] at h
    exact absurd h (List.not_mem_nil _)
  · rw [heff] at h ⊢
    exact ⟨by simp, rfl⟩

/-- C9 (witness): a successful transcription of a non-empty file writes the
temp file and deletes it last. -/
theorem post_temp_file_always_deleted_witness :
    Effect.tempWrite ∈ (POST true (some { name := "a.webm", size := 5 }) (.ok "hi")).2 ∧
      (Effect.tempDelete ∈ (POST true (some { name := "a.webm", size := 5 }) (.ok "hi")).2 ∧
        (POST true (some { name := "a.webm", size := 5 }) (.ok "hi")).2.getLast? =
          some Effect.tempDelete) :=
  ⟨by decide,
    post_temp_file_always_deleted true (some { name := "a.webm", size := 5 }) (.ok "hi")
      (by decide)⟩

/-- C10: if the remote service responds successfully but its text is empty
or whitespace-only, the handler answers 500 `"Empty transcription
received"`; conversely any 200 answer of the handler carries a transcript
that is not empty and not whitespace-only. -/
theorem post_rejects_blank_transcription :
    (∀ (f : UploadedFile) (text : String), f.size ≠ 0 →
      text.data.all isJsWhitespace = true →
      (POST true (some f) (.ok text)).1 =
        { status := 500, error := some "Empty transcription received", text := none }) ∧
    (∀ (apiKey : Bool) (file : Option UploadedFile) (remote : RemoteOutcome),
      (POST apiKey file remote).1.status = 200 →
      ∃ t : String, (POST apiKey file remote).1.text = some t ∧
        ¬ t.data.all isJsWhitespace = true) := by
  constructor
  · intro f text hf hblank
    have htrim : jsTrim text = "" := (jsTrim_eq_empty_iff text).mpr hblank
    have hcond : (text == "" || jsTrim text == "") = true := by
      simp [htrim]
    simp [POST, hf, hcond]
  · intro apiKey file remote h200
    cases apiKey with
    | false => simp [POST] at h200
    | true =>
        cases file with
        | none => simp [POST] at h200
        | some f =>
            by_cases hs : f.size == 0
            · simp [POST, hs] at h200
            · cases remote with
              | ok text =>
                  by_cases ht : (text == "" || jsTrim text == "")
                  · simp [POST, hs, ht] at h200
                  · refine ⟨text, by simp [POST, hs, ht], ?_⟩
                    intro hblank
                    exact ht (by simp [(jsTrim_eq_empty_iff text).mpr hblank])
              | thrown m => simp [POST, hs] at h200

/-- C10 (witness): a whitespace-only transcription of a concrete non-empty
file is answered with 500, and a concrete 200 answer carries the non-blank
transcript. -/
theorem post_rejects_blank_transcription_witness :
    (({ name := "a.webm", size := 5 } : UploadedFile).size ≠ 0 ∧
      (" \t ".data.all isJsWhitespace = true) ∧
      (POST true (some { name := "a.webm", size := 5 }) (.ok " \t ")).1 =
        { status := 500, error := some "Empty transcription received", text := none }) ∧
    ((POST true (some { name := "a.webm", size := 5 }) (.ok "hi")).1.status = 200 ∧
      ∃ t : String,
        (POST true (some { name := "a.webm", size := 5 }) (.ok "hi")).1.text = some t ∧
          ¬ t.data.all isJsWhitespace = true) :=
  ⟨⟨by decide, by decide,
      post_rejects_blank_transcription.1 { name := "a.webm", size := 5 } " \t "
        (by decide) (by decide)⟩,
    ⟨by decide,
      post_rejects_blank_transcription.2 true (some { name := "a.webm", size := 5 })
        (.ok "hi") (by decide)⟩⟩

end WhisperApp
